import Mathlib

/-!
Verification of the orchestration core of the PyTorch-gpu-build-AI repository.

The definitions below are a shallow embedding of the Python sources under
`src/orchestrator/` (queue_manager.py, priority_scheduler.py,
resource_allocator.py, load_balancer.py, state_manager.py, coordinator.py)
and `src/common/config/constants.py`.  Machine integers are modelled as
`Int`, Python floats (timestamps, memory sizes, durations) as `Nat`
tick-counts or `ℚ`, Python dicts as insertion-ordered association lists,
and fallible code as `Except`/`Option` or an explicit `Bool` result.
Wall-clock reads (`datetime.now`) and external probes (Kubernetes node
listings, HTTP health checks) are passed in as explicit arguments.
-/

/- ----------------------------------------------------------------------
   String helpers (Python `str.startswith`, `in`, `str.lower`).
   Implemented structurally over `String.data` so that all definitions
   reduce in the kernel.
   ---------------------------------------------------------------------- -/

/-- `startsWithChars p s` : the character list `p` is an initial segment of `s`
(Python `s.startswith(p)`). -/
def startsWithChars : List Char → List Char → Bool
  | [], _ => true
  | _ :: _, [] => false
  | p :: ps, c :: cs => p == c && startsWithChars ps cs

/-- `charsContain hay pat` : `pat` occurs contiguously inside `hay`
(Python `pat in hay` on strings). -/
def charsContain : List Char → List Char → Bool
  | [], pat => startsWithChars pat []
  | c :: cs, pat => startsWithChars pat (c :: cs) || charsContain cs pat

/-- Python `s.startswith(p)`. -/
def strStartsWith (s p : String) : Bool :=
  startsWithChars p.data s.data

/-- Python substring test `pat in s`. -/
def strContains (s pat : String) : Bool :=
  charsContain s.data pat.data

/-- ASCII lower-casing of one character (`str.lower` restricted to the ASCII
range, which is all the source ever compares against). -/
def lowerChar (c : Char) : Char :=
  if 'A' ≤ c && c ≤ 'Z' then Char.ofNat (c.toNat + 32) else c

/-- Python `s.lower()`. -/
def strLower (s : String) : String :=
  ⟨s.data.map lowerChar⟩

/- ----------------------------------------------------------------------
   Enums from src/common/config/constants.py.
   ---------------------------------------------------------------------- -/

/-- `Priority(IntEnum)` from constants.py (LOW=10, NORMAL=100, HIGH=500,
CRITICAL=1000). -/
inductive Priority where
  | low
  | normal
  | high
  | critical
deriving DecidableEq

/-- The `IntEnum` value of a `Priority` member. -/
def Priority.value : Priority → Int
  | .low => 10
  | .normal => 100
  | .high => 500
  | .critical => 1000

/-- Position of a priority class in dispatch order
(`Critical < High < Normal < Low`): smaller rank dispatches first. -/
def Priority.dispatchRank : Priority → Nat
  | .critical => 0
  | .high => 1
  | .normal => 2
  | .low => 3

/-- `BuildStatus(str, Enum)` from constants.py.  Note the member is named
`FAILURE`; there is no member `FAILED`. -/
inductive BuildStatus where
  | pending
  | queued
  | running
  | success
  | failure
  | cancelled
  | timeout
  | skipped
deriving DecidableEq

/-- The `.value` string of a `BuildStatus` member. -/
def BuildStatus.value : BuildStatus → String
  | .pending => "pending"
  | .queued => "queued"
  | .running => "running"
  | .success => "success"
  | .failure => "failure"
  | .cancelled => "cancelled"
  | .timeout => "timeout"
  | .skipped => "skipped"

/-- Python attribute access `BuildStatus.<NAME>`: returns the member with
that name, or `none` when the enum has no such member (in which case the
Python expression raises `AttributeError`).  The member list is exactly the
one declared in constants.py lines 5-13. -/
def BuildStatus.memberNamed : String → Option BuildStatus
  | "PENDING" => some .pending
  | "QUEUED" => some .queued
  | "RUNNING" => some .running
  | "SUCCESS" => some .success
  | "FAILURE" => some .failure
  | "CANCELLED" => some .cancelled
  | "TIMEOUT" => some .timeout
  | "SKIPPED" => some .skipped
  | _ => none

/- ----------------------------------------------------------------------
   Data model (src/common/dto/build.py, restricted to the attributes the
   orchestrator core reads).
   ---------------------------------------------------------------------- -/

/-- The metadata keys of a `BuildRequest` that `PriorityScheduler` reads via
`request.metadata.get(...)`, with the Python defaults used for absent keys
(`labels → []`, `is_ready_for_review → False`, `is_draft → False`,
`retry_count → 0`). -/
structure RequestMetadata where
  labels : List String := []
  is_ready_for_review : Bool := false
  is_draft : Bool := false
  retry_count : Int := 0
deriving DecidableEq

/-- The attributes of a build configuration read by
`ResourceAllocator.allocate_resources` (`config.cpu_cores`,
`config.memory_gb`, `config.gpu_architecture`).  The DTO class
`BuildConfiguration` in src/common/dto/build.py declares none of the first
two; this record models the interface the allocator is written against,
with `none`/`none`/`none` playing the role of Python `None`. -/
structure BuildConfiguration where
  gpu_architecture : Option String := none
  cpu_cores : Option Int := none
  memory_gb : Option ℚ := none
deriving DecidableEq

/-- A build request (`BuildRequest(BaseDTO)`), restricted to the attributes
the orchestrator core reads.  `id` models the UUID, `created_at` and all
other times are tick counts. -/
structure BuildRequest where
  id : Nat
  repository : String := ""
  branch : String := "main"
  commit_sha : String := ""
  pr_number : Option Nat := none
  triggered_by : String := "webhook"
  configurations : List BuildConfiguration := []
  priority : Priority := .normal
  metadata : RequestMetadata := {}
  created_at : Nat := 0
deriving DecidableEq

/- ----------------------------------------------------------------------
   PriorityScheduler (src/orchestrator/priority_scheduler.py).
   ---------------------------------------------------------------------- -/

/-- `PriorityScheduler.MAIN_BRANCHES`. -/
def MAIN_BRANCHES : List String := ["main", "master", "develop", "release"]

/-- `PriorityScheduler.HOTFIX_PREFIXES`. -/
def HOTFIX_PREFIXES : List String := ["hotfix/", "hotfix-", "fix/"]

/-- `PriorityScheduler.RELEASE_PREFIXES`. -/
def RELEASE_PREFIXES : List String := ["release/", "release-", "v"]

/-- The `_priority_weights` dict built in `PriorityScheduler.__init__`. -/
def priority_weights : List (String × Int) :=
  [("is_main_branch", 100), ("is_release_branch", 80), ("is_hotfix_branch", 90),
   ("has_priority_label", 50), ("is_ready_for_review", 30), ("is_draft", -20),
   ("is_dependabot", -10), ("retry_count", -5), ("queue_age_minutes", 2)]

/-- Lookup in `_priority_weights` (every key used by the source is present). -/
def weightOf (k : String) : Int :=
  (priority_weights.lookup k).getD 0

/-- The `_label_priority_boost` dict, in insertion order. -/
def label_priority_boost : List (String × Int) :=
  [("critical", 100), ("urgent", 80), ("high-priority", 60), ("quick-test", 40)]

/-- `PriorityScheduler._is_main_branch`. -/
def is_main_branch (branch : String) : Bool :=
  MAIN_BRANCHES.contains branch

/-- `PriorityScheduler._is_release_branch`. -/
def is_release_branch (branch : String) : Bool :=
  RELEASE_PREFIXES.any (fun p => strStartsWith branch p)

/-- `PriorityScheduler._is_hotfix_branch`. -/
def is_hotfix_branch (branch : String) : Bool :=
  HOTFIX_PREFIXES.any (fun p => strStartsWith branch p)

/-- The inner `for boost_label, boost_value in self._label_priority_boost.items()`
loop of `_get_label_priority_boost`, for one already-lowercased label. -/
def labelBoostStep (acc : Int) (labelLower : String) : Int :=
  label_priority_boost.foldl
    (fun a bv => if strContains labelLower bv.1 then max a bv.2 else a) acc

/-- `PriorityScheduler._get_label_priority_boost`. -/
def get_label_priority_boost (labels : List String) : Int :=
  labels.foldl (fun acc label => labelBoostStep acc (strLower label)) 0

/-- `PriorityScheduler._is_dependabot_pr`
(`triggered_by.lower() if triggered_by else ""`, then two substring tests). -/
def is_dependabot_pr (r : BuildRequest) : Bool :=
  let t := if r.triggered_by == "" then "" else strLower r.triggered_by
  strContains t "dependabot" || strContains t "renovate"

/-- `PriorityScheduler._calculate_priority_score`. -/
def calculate_priority_score (r : BuildRequest) : Int :=
  let score : Int := 50
  let score := if is_main_branch r.branch then score + weightOf "is_main_branch" else score
  let score := if is_release_branch r.branch then score + weightOf "is_release_branch" else score
  let score := if is_hotfix_branch r.branch then score + weightOf "is_hotfix_branch" else score
  let score := score + get_label_priority_boost r.metadata.labels
  let score := if r.metadata.is_ready_for_review then score + weightOf "is_ready_for_review" else score
  let score := if r.metadata.is_draft then score + weightOf "is_draft" else score
  let score := if is_dependabot_pr r then score + weightOf "is_dependabot" else score
  score + r.metadata.retry_count * weightOf "retry_count"

/-- `PriorityScheduler.calculate_priority`. -/
def calculate_priority (r : BuildRequest) : Priority :=
  let score := calculate_priority_score r
  if 150 ≤ score then .critical
  else if 80 ≤ score then .high
  else if 20 ≤ score then .normal
  else .low

/- ----------------------------------------------------------------------
   QueueManager (src/orchestrator/queue_manager.py).

   The Python class keeps a binary heap (`heapq`) of `QueueItem`s ordered
   by `(priority_value, timestamp)` (the `request` field is excluded from
   comparison).  We model the heap by its contents: `heappush` inserts an
   item, and `heappop` removes and returns a smallest item, which is
   heapq's contract.  Wall-clock reads (`datetime.now().timestamp()` in
   `QueueItem.from_request`) are passed as an explicit `now` argument.
   ---------------------------------------------------------------------- -/

/-- `QueueItem` (a `@dataclass(order=True)` compared on
`(priority_value, timestamp)`; `request` is `compare=False`). -/
structure QueueItem where
  priority_value : Int
  timestamp : Nat
  request : BuildRequest
deriving DecidableEq

/-- `QueueItem._get_priority_value`: the dispatch key of a priority class
(`{CRITICAL: 0, HIGH: 100, NORMAL: 200, LOW: 300}`; the `.get(priority, 200)`
default is unreachable because `Priority` has exactly these four members). -/
def getPriorityValue : Priority → Int
  | .critical => 0
  | .high => 100
  | .normal => 200
  | .low => 300

/-- `QueueItem.from_request(request)`: builds the heap entry with the
current wall-clock time `now` as its `timestamp` — the timestamp is taken
at the moment of the call, not from the request. -/
def QueueItem.from_request (r : BuildRequest) (now : Nat) : QueueItem :=
  { priority_value := getPriorityValue r.priority, timestamp := now, request := r }

/-- The dataclass comparison `a <= b` on `(priority_value, timestamp)`. -/
def keyLe (a b : QueueItem) : Bool :=
  a.priority_value < b.priority_value ||
    (a.priority_value == b.priority_value && a.timestamp ≤ b.timestamp)

/-- Strict dataclass comparison `a < b` on `(priority_value, timestamp)`. -/
def keyLt (a b : QueueItem) : Bool :=
  a.priority_value < b.priority_value ||
    (a.priority_value == b.priority_value && a.timestamp < b.timestamp)

/-- Queue state: heap contents plus the configured bound
(`max_queue_size`, default 1000).  The by-id index `_build_ids` always
mirrors the heap contents, so it is represented by the contents themselves. -/
structure QState where
  items : List QueueItem := []
  max_queue_size : Nat := 1000
deriving DecidableEq

/-- `QueueManager.enqueue(request)` at wall-clock time `now`: refuses when
the queue is full or the id is already queued, otherwise pushes
`QueueItem.from_request(request)` (which stamps `now`). -/
def QueueManager.enqueue (q : QState) (r : BuildRequest) (now : Nat) : Bool × QState :=
  if q.max_queue_size ≤ q.items.length then (false, q)
  else if q.items.any (fun it => it.request.id == r.id) then (false, q)
  else (true, { q with items := QueueItem.from_request r now :: q.items })

/-- `heapq.heappop` on the heap contents: removes and returns a smallest
element under the dataclass order (`none` on an empty heap). -/
def popMin : List QueueItem → Option (QueueItem × List QueueItem)
  | [] => none
  | x :: xs =>
    match popMin xs with
    | none => some (x, [])
    | some (m, rest) => if keyLe x m then some (x, xs) else some (m, x :: rest)

/-- `QueueManager.dequeue()` with its default `timeout=None`: the code
takes the `elif not self._queue: return None` branch immediately on an
empty queue (only calls passing a timeout reach the `wait_for`), and
otherwise heappops the minimum item and returns its request. -/
def QueueManager.dequeue_no_timeout (q : QState) : Option BuildRequest × QState :=
  match popMin q.items with
  | none => (none, q)
  | some (m, rest) => (some m.request, { q with items := rest })

/-- Repeated `heappop` with explicit fuel (used with fuel = list length). -/
def drainFuel : Nat → List QueueItem → List QueueItem
  | 0, _ => []
  | fuel + 1, l =>
    match popMin l with
    | none => []
    | some (m, rest) => m :: drainFuel fuel rest

/-- The sequence of items returned by dequeueing until the queue is empty,
with no interleaved enqueue or reprioritize. -/
def drain (l : List QueueItem) : List QueueItem :=
  drainFuel l.length l

/- ----------------------------------------------------------------------
   ResourceAllocator (src/orchestrator/resource_allocator.py).

   The Kubernetes node listing consumed by `refresh_node_resources` is
   passed in as a list of `NodeReport`s (one per `nodes.items` entry, with
   the label and quantity parsing already applied); `uuid4()` and
   `datetime.now` are passed as explicit arguments.
   ---------------------------------------------------------------------- -/

/-- `ResourceAllocation` dataclass. -/
structure ResourceAllocation where
  allocation_id : Nat
  gpu_ids : List String := []
  cpu_cores : Int := 0
  memory_gb : ℚ := 0
  node_name : String := ""
  allocated_at : Nat := 0
deriving DecidableEq

/-- `NodeResources` dataclass. -/
structure NodeResources where
  node_name : String
  total_gpus : Int := 0
  available_gpus : Int := 0
  gpu_ids : List String := []
  gpu_architectures : List String := []
  total_cpu_cores : Int := 0
  available_cpu_cores : Int := 0
  total_memory_gb : ℚ := 0
  available_memory_gb : ℚ := 0
  is_healthy : Bool := true
  last_updated : Nat := 0
deriving DecidableEq

/-- One node of the cluster listing, as `refresh_node_resources` reads it:
the `gpu-vendor` label, the parsed `amd.com/gpu`, `cpu` and `memory`
allocatable quantities, the parsed `gpu-arch` label, and the node's Ready
condition. -/
structure NodeReport where
  name : String
  gpu_vendor : String := "amd"
  gpu_count : Nat := 0
  cpu_cores : Int := 0
  memory_gb : ℚ := 0
  gpu_arch : String := "gfx90a"
  healthy : Bool := true
deriving DecidableEq

/-- Allocator state: the `_nodes` and `_allocations` dicts, as
insertion-ordered association lists. -/
structure AllocState where
  nodes : List (String × NodeResources) := []
  allocations : List (Nat × ResourceAllocation) := []
deriving DecidableEq

/-- Replace the value at the first occurrence of `k`, or append `(k, v)`
(Python dict assignment). -/
def assocSet {α : Type} [BEq α] {β : Type} : List (α × β) → α → β → List (α × β)
  | [], k, v => [(k, v)]
  | (k', v') :: t, k, v =>
    if k' == k then (k, v) :: t else (k', v') :: assocSet t k v

/-- Remove the first occurrence of `k` (Python `del d[k]`). -/
def assocDel {α : Type} [BEq α] {β : Type} : List (α × β) → α → List (α × β)
  | [], _ => []
  | (k', v') :: t, k => if k' == k then t else (k', v') :: assocDel t k

/-- The per-node body of `refresh_node_resources` (lines 89-123): skip
nodes not labelled `gpu-vendor: amd`; otherwise create the entry if absent
and overwrite totals, `gpu_ids`, architectures — and the `available_*`
fields, which are set to the reported totals. -/
def refreshNode (nodes : List (String × NodeResources)) (rep : NodeReport)
    (now : Nat) : List (String × NodeResources) :=
  if rep.gpu_vendor != "amd" then nodes
  else
    assocSet nodes rep.name
      { node_name := rep.name
        total_gpus := rep.gpu_count
        available_gpus := rep.gpu_count
        gpu_ids := (List.range rep.gpu_count).map
          (fun i => rep.name ++ "-gpu-" ++ toString i)
        gpu_architectures := List.replicate rep.gpu_count rep.gpu_arch
        total_cpu_cores := rep.cpu_cores
        available_cpu_cores := rep.cpu_cores
        total_memory_gb := rep.memory_gb
        available_memory_gb := rep.memory_gb
        is_healthy := rep.healthy
        last_updated := now }

/-- `ResourceAllocator.refresh_node_resources` on a cluster listing
`reports` at time `now` (the Kubernetes-client path; `_allocations` is not
consulted). -/
def refresh_node_resources (st : AllocState) (reports : List NodeReport)
    (now : Nat) : AllocState :=
  { st with nodes := reports.foldl (fun ns rep => refreshNode ns rep now) st.nodes }

/-- Python `x or default` for an optional integer (`None` and `0` are both
falsy, so they yield the default). -/
def pyOrInt (x : Option Int) (d : Int) : Int :=
  match x with
  | none => d
  | some v => if v == 0 then d else v

/-- Python `x or default` for an optional rational. -/
def pyOrRat (x : Option ℚ) (d : ℚ) : ℚ :=
  match x with
  | none => d
  | some v => if v == 0 then d else v

/-- The node-selection loop of `allocate_resources` (lines 205-222): scan
`_nodes.values()` in insertion order, skip unhealthy or insufficient
nodes, and keep the first node with the strictly largest `available_gpus`. -/
def selectNode (nodes : List (String × NodeResources)) (g c : Int) (m : ℚ)
    (arch : Option String) : Option NodeResources :=
  nodes.foldl
    (fun sel kn =>
      let node := kn.2
      if !node.is_healthy then sel
      else if node.available_gpus < g then sel
      else if node.available_cpu_cores < c then sel
      else if node.available_memory_gb < m then sel
      else if arch.any (fun a => !(node.gpu_architectures.contains a)) then sel
      else
        match sel with
        | none => some node
        | some s => if s.available_gpus < node.available_gpus then some node else sel)
    none

/-- `ResourceAllocator.allocate_resources(config)`: refreshes first (from
`reports` at time `now`), then selects a node, reserves the first GPU id,
decrements the node's `available_*`, and records a new allocation with the
fresh id `newId`.  Returns `none` and the refreshed state when no node
qualifies. -/
def allocate_resources (st : AllocState) (config : BuildConfiguration)
    (reports : List NodeReport) (now : Nat) (newId : Nat) :
    Option ResourceAllocation × AllocState :=
  let st := refresh_node_resources st reports now
  let required_gpus : Int := 1
  let required_cpu := pyOrInt config.cpu_cores 8
  let required_memory := pyOrRat config.memory_gb 32
  match selectNode st.nodes required_gpus required_cpu required_memory
      config.gpu_architecture with
  | none => (none, st)
  | some sel =>
    let allocated_gpu_ids := sel.gpu_ids.take 1
    let sel' := { sel with
      available_gpus := sel.available_gpus - required_gpus
      available_cpu_cores := sel.available_cpu_cores - required_cpu
      available_memory_gb := sel.available_memory_gb - required_memory }
    let allocation : ResourceAllocation :=
      { allocation_id := newId
        gpu_ids := allocated_gpu_ids
        cpu_cores := required_cpu
        memory_gb := required_memory
        node_name := sel.node_name
        allocated_at := now }
    (some allocation,
      { nodes := assocSet st.nodes sel.node_name sel'
        allocations := st.allocations ++ [(newId, allocation)] })

/-- `ResourceAllocator.release_resources(allocation)`: returns `False`
untouched when the allocation id is not recorded; otherwise deletes the
record and, if the node is known, adds the recorded amounts back to its
`available_*`. -/
def release_resources (st : AllocState) (a : ResourceAllocation) :
    Bool × AllocState :=
  if (st.allocations.lookup a.allocation_id).isNone then (false, st)
  else
    let st := { st with allocations := assocDel st.allocations a.allocation_id }
    match st.nodes.lookup a.node_name with
    | none => (true, st)
    | some node =>
      let node' := { node with
        available_gpus := node.available_gpus + a.gpu_ids.length
        available_cpu_cores := node.available_cpu_cores + a.cpu_cores
        available_memory_gb := node.available_memory_gb + a.memory_gb }
      (true, { st with nodes := assocSet st.nodes a.node_name node' })

/-- Sum of the GPU counts of the outstanding allocations recorded for node
`n` (the `Σ outstanding_allocations_on_node` of the accounting invariant). -/
def outstandingGpus (st : AllocState) (n : String) : Int :=
  (st.allocations.filter (fun ia => ia.2.node_name == n)).foldl
    (fun acc ia => acc + ia.2.gpu_ids.length) 0

/-- Sum of the CPU cores of the outstanding allocations on node `n`. -/
def outstandingCpu (st : AllocState) (n : String) : Int :=
  (st.allocations.filter (fun ia => ia.2.node_name == n)).foldl
    (fun acc ia => acc + ia.2.cpu_cores) 0

/-- Sum of the memory of the outstanding allocations on node `n`. -/
def outstandingMem (st : AllocState) (n : String) : ℚ :=
  (st.allocations.filter (fun ia => ia.2.node_name == n)).foldl
    (fun acc ia => acc + ia.2.memory_gb) 0

/- ----------------------------------------------------------------------
   LoadBalancer (src/orchestrator/load_balancer.py).

   The outcome of the HTTP probe in `_check_worker_health` is passed in as
   a `ProbeOutcome` per worker id: either the response status code, or
   `raised` for a timeout / connection error (any exception from the
   `aiohttp` block).
   ---------------------------------------------------------------------- -/

/-- `WorkerInfo` dataclass. -/
structure WorkerInfo where
  worker_id : String
  address : String
  port : Nat := 8080
  weight : Int := 1
  current_load : Int := 0
  max_load : Int := 5
  is_healthy : Bool := true
  last_health_check : Nat := 0
  total_builds_completed : Int := 0
  average_build_time_seconds : ℚ := 600
deriving DecidableEq

/-- Load balancer worker registry (`_workers`), insertion-ordered. -/
structure LBState where
  workers : List (String × WorkerInfo) := []
deriving DecidableEq

/-- What the bounded-timeout HTTP probe of one worker did: returned a
response with the given status code, or raised (timeout, connection
error). -/
inductive ProbeOutcome where
  | status (code : Nat)
  | raised
deriving DecidableEq

/-- `LoadBalancer.update_worker_load(worker_id, load_delta)`: clamps the
new load at 0; unknown ids are ignored. -/
def update_worker_load (lb : LBState) (worker_id : String) (load_delta : Int) :
    LBState :=
  match lb.workers.lookup worker_id with
  | none => lb
  | some w =>
    { workers := assocSet lb.workers worker_id
        { w with current_load := max 0 (w.current_load + load_delta) } }

/-- `LoadBalancer.record_build_completion(worker_id, build_time_seconds)`:
decrement `current_load` (floored at 0), increment
`total_builds_completed`, and set `average_build_time_seconds` to
`((n - 1) * old + d) / n` for the new count `n`. -/
def record_build_completion (lb : LBState) (worker_id : String)
    (build_time_seconds : ℚ) : LBState :=
  match lb.workers.lookup worker_id with
  | none => lb
  | some w =>
    let n : Int := w.total_builds_completed + 1
    { workers := assocSet lb.workers worker_id
        { w with
          current_load := max 0 (w.current_load - 1)
          total_builds_completed := n
          average_build_time_seconds :=
            ((n - 1) * w.average_build_time_seconds + build_time_seconds) / n } }

/-- `LoadBalancer.mark_worker_healthy`: sets the health flag and stamps
`last_health_check` with the current time. -/
def mark_worker_healthy (lb : LBState) (worker_id : String) (now : Nat) : LBState :=
  match lb.workers.lookup worker_id with
  | none => lb
  | some w =>
    { workers := assocSet lb.workers worker_id
        { w with is_healthy := true, last_health_check := now } }

/-- `LoadBalancer.mark_worker_unhealthy`. -/
def mark_worker_unhealthy (lb : LBState) (worker_id : String) : LBState :=
  match lb.workers.lookup worker_id with
  | none => lb
  | some w =>
    { workers := assocSet lb.workers worker_id { w with is_healthy := false } }

/-- `LoadBalancer._check_worker_health(worker_id)`: `False` for an unknown
worker; otherwise `response.status == 200` when the probe returns, and —
as written in the source (`except Exception: return True`, lines 271-272)
— `True` when the probe raises. -/
def check_worker_health (lb : LBState) (probe : String → ProbeOutcome)
    (worker_id : String) : Bool :=
  match lb.workers.lookup worker_id with
  | none => false
  | some _ =>
    match probe worker_id with
    | .status code => code == 200
    | .raised => true

/-- One round of `LoadBalancer._perform_health_checks` at time `now`: for
each registered worker id, mark it healthy when `_check_worker_health`
returns `True` and unhealthy otherwise.  (`_check_worker_health` swallows
every exception, so the caller's `except` branch is unreachable.) -/
def perform_health_checks (lb : LBState) (probe : String → ProbeOutcome)
    (now : Nat) : LBState :=
  (lb.workers.map Prod.fst).foldl
    (fun s wid =>
      if check_worker_health s probe wid
      then mark_worker_healthy s wid now
      else mark_worker_unhealthy s wid)
    lb

/- ----------------------------------------------------------------------
   StateManager (src/orchestrator/state_manager.py), in its default
   configuration (no Redis URL, so `_persistence_enabled` is false and the
   in-memory dicts are authoritative).
   ---------------------------------------------------------------------- -/

/-- A Python value stored in a `_build_states` per-build dict. -/
inductive PyVal where
  | str (s : String)
  | int (n : Int)
  | rat (q : ℚ)
  | pynone
deriving DecidableEq

/-- A per-build state dict (string keys, insertion-ordered). -/
abbrev BuildDict := List (String × PyVal)

/-- State manager state: the `_build_states` and `_build_requests` dicts. -/
structure SMState where
  build_states : List (Nat × BuildDict) := []
  build_requests : List (Nat × BuildRequest) := []
deriving DecidableEq

/-- `StateManager.save_build_request(request)` at time `now`: stores the
request and seeds its state dict with status `pending`. -/
def save_build_request (sm : SMState) (r : BuildRequest) (now : Nat) : SMState :=
  { build_requests := assocSet sm.build_requests r.id r
    build_states := assocSet sm.build_states r.id
      [("status", .str BuildStatus.pending.value),
       ("repository", .str r.repository),
       ("branch", .str r.branch),
       ("commit_sha", .str r.commit_sha),
       ("pr_number", match r.pr_number with | some n => .int n | none => .pynone),
       ("created_at", .int now)] }

/-- `StateManager.update_build_status(build_id, status, metadata)` at time
`now`.  The method writes `status` and `updated_at` and merges `metadata`,
and then evaluates the tuple
`(BuildStatus.SUCCESS, BuildStatus.FAILED, BuildStatus.CANCELLED)`
(line 88).  `BuildStatus` has no member `FAILED` (constants.py declares
`FAILURE`), so that attribute access raises `AttributeError`: the call
never completes normally and the `completed_at` stamping is never reached.
The `.error` payload carries the partially-updated state that the raise
leaves behind. -/
def update_build_status (sm : SMState) (build_id : Nat) (status : BuildStatus)
    (metadata : List (String × PyVal)) (now : Nat) : Except SMState SMState :=
  let d := (sm.build_states.lookup build_id).getD []
  let d := assocSet d "status" (.str status.value)
  let d := assocSet d "updated_at" (.int now)
  let d := metadata.foldl (fun acc kv => assocSet acc kv.1 kv.2) d
  let sm' := { sm with build_states := assocSet sm.build_states build_id d }
  match BuildStatus.memberNamed "SUCCESS", BuildStatus.memberNamed "FAILED",
      BuildStatus.memberNamed "CANCELLED" with
  | some s1, some s2, some s3 =>
    if status = s1 ∨ status = s2 ∨ status = s3 then
      let d := assocSet d "completed_at" (.int now)
      .ok { sm' with build_states := assocSet sm'.build_states build_id d }
    else .ok sm'
  | _, _, _ => .error sm'

/-- `StateManager.restore_pending_builds()` with persistence disabled:
collects, in `_build_states` insertion order, the stored request of every
build whose status string is `pending` or `running`, skipping duplicates.
The list is only returned — nothing is re-enqueued here. -/
def restore_pending_builds (sm : SMState) : List BuildRequest :=
  sm.build_states.foldl
    (fun acc idst =>
      let status := idst.2.lookup "status"
      if status == some (.str BuildStatus.pending.value) ||
          status == some (.str BuildStatus.running.value) then
        match sm.build_requests.lookup idst.1 with
        | some r => if acc.contains r then acc else acc ++ [r]
        | none => acc
      else acc)
    []

/- ----------------------------------------------------------------------
   BuildCoordinator (src/orchestrator/coordinator.py).
   ---------------------------------------------------------------------- -/

/-- The observable steps that `BuildCoordinator.start` performs, in order:
`asyncio.create_task(self._process_queue())` and the awaited
`restore_pending_builds()` call (whose returned list is recorded here and
discarded by the caller). -/
inductive StartEvent where
  | spawn_processing_loop
  | restore_pending_called (restored : List BuildRequest)
deriving DecidableEq

/-- Coordinator state: the queue, the state manager, and the `_running`
flag. -/
structure CoordState where
  queue : QState := {}
  sm : SMState := {}
  running : Bool := false
deriving DecidableEq

/-- `BuildCoordinator.start()` (coordinator.py lines 38-43): sets
`_running`, creates the `_process_queue` task, then awaits
`restore_pending_builds()` — in that order — and ignores the returned
list.  No request is enqueued. -/
def BuildCoordinator.start (c : CoordState) : CoordState × List StartEvent :=
  let c := { c with running := true }
  let e1 := StartEvent.spawn_processing_loop
  let restored := restore_pending_builds c.sm
  (c, [e1, StartEvent.restore_pending_called restored])

/-- The attributes of a dispatch result that `_handle_build_result` reads:
`result.status`, `result.completed_at`, `result.duration_seconds` and
`result.environment.node_name` (the worker id selected for the build is
not passed in). -/
structure DispatchResult where
  status : BuildStatus
  completed_at : Option Nat := none
  duration_seconds : Option ℚ := none
  environment_node_name : Option String := none
deriving DecidableEq

/-- `BuildCoordinator._handle_build_result(build_id, result)` at time
`now`: first awaits `update_build_status(build_id, result.status, ...)` —
which raises (see `update_build_status`), so the subsequent
`update_worker_load(result.environment.node_name or "unknown", -1)` call
is never reached and the load balancer is left untouched.  The (dead)
normal path is also modelled: it calls `update_worker_load`, not
`record_build_completion`. -/
def handle_build_result (sm : SMState) (lb : LBState) (build_id : Nat)
    (result : DispatchResult) (now : Nat) :
    Except (SMState × LBState) (SMState × LBState) :=
  let metadata : List (String × PyVal) :=
    [("completed_at", match result.completed_at with
        | some t => .int t
        | none => .pynone),
     ("duration_seconds", match result.duration_seconds with
        | some d => .rat d
        | none => .pynone)]
  match update_build_status sm build_id result.status metadata now with
  | .error sm' => .error (sm', lb)
  | .ok sm' =>
    .ok (sm', update_worker_load lb (result.environment_node_name.getD "unknown") (-1))

/- ----------------------------------------------------------------------
   Helper lemmas about the queue order and `heappop`.
   ---------------------------------------------------------------------- -/

lemma keyLe_refl (a : QueueItem) : keyLe a a = true := by
  simp [keyLe]

lemma keyLe_total (a b : QueueItem) : keyLe a b = true ∨ keyLe b a = true := by
  simp [keyLe]
  omega

lemma keyLe_trans {a b c : QueueItem} (h1 : keyLe a b = true)
    (h2 : keyLe b c = true) : keyLe a c = true := by
  simp [keyLe] at *
  omega

lemma keyLt_keyLe_false {a b : QueueItem} (h1 : keyLt a b = true)
    (h2 : keyLe b a = true) : False := by
  simp [keyLt, keyLe] at *
  omega

lemma popMin_eq_none {l : List QueueItem} (h : popMin l = none) : l = [] := by
  cases l with
  | nil => rfl
  | cons x xs =>
    cases hp : popMin xs with
    | none => simp [popMin, hp] at h
    | some p =>
      obtain ⟨m', rest'⟩ := p
      simp only [popMin, hp] at h
      split at h <;> simp at h

lemma popMin_mem {l : List QueueItem} {m : QueueItem} {rest : List QueueItem}
    (h : popMin l = some (m, rest)) : m ∈ l := by
  induction l generalizing m rest with
  | nil => simp [popMin] at h
  | cons x xs ih =>
    cases hp : popMin xs with
    | none =>
      simp only [popMin, hp] at h
      simp at h
      simp [h.1]
    | some p =>
      obtain ⟨m', rest'⟩ := p
      simp only [popMin, hp] at h
      split at h
      · simp at h
        simp [h.1]
      · simp at h
        exact List.mem_cons_of_mem x (ih (by rw [hp, h.1]))

lemma popMin_subset {l : List QueueItem} {m : QueueItem} {rest : List QueueItem}
    (h : popMin l = some (m, rest)) : ∀ y ∈ rest, y ∈ l := by
  induction l generalizing m rest with
  | nil => simp [popMin] at h
  | cons x xs ih =>
    cases hp : popMin xs with
    | none =>
      simp only [popMin, hp] at h
      simp at h
      simp [h.2]
    | some p =>
      obtain ⟨m', rest'⟩ := p
      simp only [popMin, hp] at h
      split at h
      · simp at h
        intro y hy
        rw [← h.2] at hy
        exact List.mem_cons_of_mem x hy
      · simp at h
        intro y hy
        rw [← h.2] at hy
        rcases List.mem_cons.mp hy with rfl | hy'
        · exact List.mem_cons_self y xs
        · exact List.mem_cons_of_mem x (ih hp y hy')

lemma popMin_min {l : List QueueItem} {m : QueueItem} {rest : List QueueItem}
    (h : popMin l = some (m, rest)) : ∀ y ∈ l, keyLe m y = true := by
  induction l generalizing m rest with
  | nil => simp [popMin] at h
  | cons x xs ih =>
    cases hp : popMin xs with
    | none =>
      simp only [popMin, hp] at h
      simp at h
      have hxs := popMin_eq_none hp
      subst hxs
      intro y hy
      simp at hy
      subst hy
      rw [← h.1]
      exact keyLe_refl y
    | some p =>
      obtain ⟨m', rest'⟩ := p
      simp only [popMin, hp] at h
      split at h
      · rename_i hle
        simp at h
        intro y hy
        rw [← h.1]
        rcases List.mem_cons.mp hy with rfl | hy'
        · exact keyLe_refl y
        · exact keyLe_trans hle (ih hp y hy')
      · rename_i hle
        simp at h
        have hmx : keyLe m' x = true := by
          rcases keyLe_total x m' with h' | h'
          · exact absurd h' hle
          · exact h'
        intro y hy
        rw [← h.1]
        rcases List.mem_cons.mp hy with rfl | hy'
        · exact hmx
        · exact ih hp y hy'

lemma popMin_length {l : List QueueItem} {m : QueueItem} {rest : List QueueItem}
    (h : popMin l = some (m, rest)) : l.length = rest.length + 1 := by
  induction l generalizing m rest with
  | nil => simp [popMin] at h
  | cons x xs ih =>
    cases hp : popMin xs with
    | none =>
      simp only [popMin, hp] at h
      simp at h
      have hxs := popMin_eq_none hp
      subst hxs
      simp [← h.2]
    | some p =>
      obtain ⟨m', rest'⟩ := p
      simp only [popMin, hp] at h
      split at h
      · simp at h
        simp [← h.2]
      · simp at h
        rw [← h.2]
        simp [ih hp]

lemma drainFuel_mem {fuel : Nat} :
    ∀ {l : List QueueItem}, l.length ≤ fuel →
      ∀ {x : QueueItem}, x ∈ drainFuel fuel l → x ∈ l := by
  induction fuel with
  | zero =>
    intro l _ x hx
    simp [drainFuel] at hx
  | succ n ih =>
    intro l hlen x hx
    cases hp : popMin l with
    | none => simp [drainFuel, hp] at hx
    | some p =>
      obtain ⟨m, rest⟩ := p
      simp only [drainFuel, hp] at hx
      rcases List.mem_cons.mp hx with rfl | hx'
      · exact popMin_mem hp
      · have hrest : rest.length ≤ n := by
          have := popMin_length hp
          omega
        exact popMin_subset hp x (ih hrest hx')

lemma drainFuel_chain {fuel : Nat} :
    ∀ {l : List QueueItem}, l.length ≤ fuel →
      List.Chain' (fun a b => keyLe a b = true) (drainFuel fuel l) := by
  induction fuel with
  | zero =>
    intro l _
    simp [drainFuel]
  | succ n ih =>
    intro l hlen
    cases hp : popMin l with
    | none => simp [drainFuel, hp]
    | some p =>
      obtain ⟨m, rest⟩ := p
      simp only [drainFuel, hp]
      have hrest : rest.length ≤ n := by
        have := popMin_length hp
        omega
      refine List.chain'_cons'.mpr ⟨?_, ih hrest⟩
      intro b hb
      have hbmem : b ∈ rest := drainFuel_mem hrest (List.mem_of_mem_head? hb)
      exact popMin_min hp b (popMin_subset hp b hbmem)

lemma drain_mem {l : List QueueItem} {x : QueueItem} (hx : x ∈ drain l) :
    x ∈ l :=
  drainFuel_mem le_rfl hx

lemma drain_chain (l : List QueueItem) :
    List.Chain' (fun a b => keyLe a b = true) (drain l) :=
  drainFuel_chain le_rfl

lemma chain'_imp_mem {α : Type} {R S : α → α → Prop} :
    ∀ l : List α, (∀ a ∈ l, ∀ b ∈ l, R a b → S a b) →
      List.Chain' R l → List.Chain' S l := by
  intro l
  induction l with
  | nil => intro _ _; simp
  | cons a t ih =>
    intro hmem hch
    rcases List.chain'_cons'.mp hch with ⟨hhead, htail⟩
    refine List.chain'_cons'.mpr ⟨?_, ?_⟩
    · intro b hb
      exact hmem a (by simp) b
        (List.mem_cons_of_mem a (List.mem_of_mem_head? hb)) (hhead b hb)
    · exact ih (fun x hx y hy h => hmem x (List.mem_cons_of_mem a hx)
        y (List.mem_cons_of_mem a hy) h) htail

lemma getPriorityValue_rank_mono :
    ∀ p p' : Priority,
      getPriorityValue p < getPriorityValue p' → p.dispatchRank ≤ p'.dispatchRank := by
  intro p p'
  cases p <;> cases p' <;> decide

lemma getPriorityValue_inj :
    ∀ p p' : Priority, getPriorityValue p = getPriorityValue p' → p = p' := by
  intro p p'
  cases p <;> cases p' <;> decide

/- ----------------------------------------------------------------------
   Claim theorems: queue ordering (C6, C10, C3).
   ---------------------------------------------------------------------- -/

/-- C6.  Dequeue ordering: for every sequence of dequeues with no
interleaved enqueue or reprioritize (modelled by `drain`), over any queue
whose items carry the `priority_value` of their request's class (as every
item built by `QueueItem.from_request` does), the priority class of the
k-th dequeued item is at most the class of the (k+1)-th in dispatch order
(`Critical < High < Normal < Low`), and within equal class the arrival
timestamps are non-decreasing (FIFO within a class). -/
theorem dequeue_sequence_sorted (q : List QueueItem)
    (hwf : ∀ x ∈ q, x.priority_value = getPriorityValue x.request.priority) :
    List.Chain'
      (fun a b =>
        a.request.priority.dispatchRank ≤ b.request.priority.dispatchRank ∧
        (a.request.priority = b.request.priority → a.timestamp ≤ b.timestamp))
      (drain q) := by
  refine chain'_imp_mem (drain q) ?_ (drain_chain q)
  intro a ha b hb hle
  have hpa := hwf a (drain_mem ha)
  have hpb := hwf b (drain_mem hb)
  simp only [keyLe, Bool.or_eq_true, Bool.and_eq_true, beq_iff_eq,
    decide_eq_true_eq] at hle
  rcases hle with hlt | ⟨heq, hts⟩
  · rw [hpa, hpb] at hlt
    refine ⟨getPriorityValue_rank_mono _ _ hlt, ?_⟩
    intro hp
    rw [hp] at hlt
    omega
  · rw [hpa, hpb] at heq
    have := getPriorityValue_inj _ _ heq
    exact ⟨this ▸ le_rfl, fun _ => hts⟩

/-- Requests used in the concrete queue scenarios below. -/
def reqA : BuildRequest := { id := 1 }

/-- A second normal-priority request, submitted at tick 1. -/
def reqB : BuildRequest := { id := 3, created_at := 1 }

/-- A high-priority request. -/
def reqH : BuildRequest := { id := 4, priority := .high }

/-- Concrete queue contents for the C6 witness. -/
def qC6 : List QueueItem :=
  [QueueItem.from_request reqA 5, QueueItem.from_request reqH 9,
   QueueItem.from_request reqB 1]

/-- Witness for `dequeue_sequence_sorted` at the concrete queue `qC6`. -/
theorem dequeue_sequence_sorted_witness :
    List.Chain'
      (fun a b =>
        a.request.priority.dispatchRank ≤ b.request.priority.dispatchRank ∧
        (a.request.priority = b.request.priority → a.timestamp ≤ b.timestamp))
      (drain qC6) :=
  dequeue_sequence_sorted qC6 (by decide)

/-- C10.  `dequeue()` called without a timeout is non-blocking: on an
empty queue it returns `none` immediately leaving the state unchanged,
and whenever it returns a request, that request belongs to a queued item
that is minimal in the dataclass order `(priority_value, timestamp)`. -/
theorem dequeue_no_timeout_nonblocking_min (q : QState) :
    (q.items = [] → QueueManager.dequeue_no_timeout q = (none, q)) ∧
    (∀ r q', QueueManager.dequeue_no_timeout q = (some r, q') →
      ∃ m, m ∈ q.items ∧ m.request = r ∧ ∀ y ∈ q.items, keyLe m y = true) := by
  constructor
  · intro h
    simp [QueueManager.dequeue_no_timeout, h, popMin]
  · intro r q' hres
    cases hp : popMin q.items with
    | none => simp [QueueManager.dequeue_no_timeout, hp] at hres
    | some p =>
      obtain ⟨m, rest⟩ := p
      simp only [QueueManager.dequeue_no_timeout, hp] at hres
      have h1 : some m.request = some r := congrArg Prod.fst hres
      exact ⟨m, popMin_mem hp, Option.some.inj h1, popMin_min hp⟩

/-- The empty queue. -/
def qEmpty : QState := {}

/-- A concrete two-item queue for the C10 witness. -/
def qC10 : QState :=
  { items := [QueueItem.from_request reqA 5, QueueItem.from_request reqB 1] }

/-- Witness for `dequeue_no_timeout_nonblocking_min`: the empty queue
returns `none` unchanged, and on `qC10` the dequeued request comes from a
minimal item. -/
theorem dequeue_no_timeout_nonblocking_min_witness :
    QueueManager.dequeue_no_timeout qEmpty = (none, qEmpty) ∧
    (∃ m, m ∈ qC10.items ∧ m.request = reqB ∧
      ∀ y ∈ qC10.items, keyLe m y = true) :=
  ⟨(dequeue_no_timeout_nonblocking_min qEmpty).1 rfl,
   (dequeue_no_timeout_nonblocking_min qC10).2 reqB
     { items := [QueueItem.from_request reqA 5] } (by decide)⟩

/-- The queue after: `enqueue(reqA)` at tick 0, `dequeue()`, `enqueue(reqB)`
at tick 1, and the `_execute_build` re-enqueue `enqueue(reqA)` at tick 2
(the coordinator's allocator-refusal path calls
`self._queue_manager.enqueue(request)`, which rebuilds the item with
`QueueItem.from_request`). -/
def qC3 : QState :=
  (QueueManager.enqueue
    (QueueManager.dequeue_no_timeout (QueueManager.enqueue {} reqA 0).2).2
    reqB 1 |>.2 |> (QueueManager.enqueue · reqA 2) |>.2)

/-- C3 counterexample.  `reqA` (arrived at tick 0, Normal class) is
dequeued, then re-enqueued at tick 2 after `reqB` (same class, submitted
at tick 1): the re-inserted item's timestamp is the re-enqueue time 2, not
the original arrival 0, and the next dequeue returns the later-submitted
`reqB`, not the re-enqueued `reqA` — contradicting the claim on both
counts. -/
theorem reenqueue_timestamp_refreshed_cex :
    (QueueItem.from_request reqA 2).timestamp = 2 ∧
    ¬ (QueueItem.from_request reqA 2).timestamp = 0 ∧
    reqB.priority = reqA.priority ∧
    (QueueManager.dequeue_no_timeout qC3).1 = some reqB ∧
    reqB ≠ reqA := by
  decide

/-- C3 amended.  A request re-enqueued by `_execute_build` at time `t`
receives a fresh arrival timestamp `t` (the original arrival time is not
kept), so it goes to the tail of its priority class: the next dequeue
returns neither the re-enqueued item while a strictly key-smaller item
(same class but earlier timestamp, or higher class) is present, nor any
item of a strictly lower priority class. -/
theorem reenqueue_fresh_timestamp_class_tail (r : BuildRequest) (t : Nat)
    (q : List QueueItem) (x : QueueItem) (hx : x ∈ q)
    (m : QueueItem) (rest : List QueueItem)
    (hpop : popMin (QueueItem.from_request r t :: q) = some (m, rest)) :
    (QueueItem.from_request r t).timestamp = t ∧
    (keyLt x (QueueItem.from_request r t) = true →
      m ≠ QueueItem.from_request r t) ∧
    ((QueueItem.from_request r t).priority_value < x.priority_value →
      m ≠ x) := by
  refine ⟨rfl, ?_, ?_⟩
  · intro hlt heq
    have hmx : keyLe m x = true :=
      popMin_min hpop x (List.mem_cons_of_mem _ hx)
    rw [heq] at hmx
    exact keyLt_keyLe_false hlt hmx
  · intro hlt heq
    have hme : keyLe m (QueueItem.from_request r t) = true :=
      popMin_min hpop _ (List.mem_cons_self _ _)
    rw [heq] at hme
    simp [keyLe] at hme
    omega

/-- Witness for `reenqueue_fresh_timestamp_class_tail` at the concrete
re-enqueue of `reqA` at tick 2 next to the earlier same-class item built
from `reqB` at tick 1: the fresh timestamp is 2 and the minimum is not the
re-enqueued item. -/
theorem reenqueue_fresh_timestamp_class_tail_witness :
    (QueueItem.from_request reqA 2).timestamp = 2 ∧
    QueueItem.from_request reqB 1 ≠ QueueItem.from_request reqA 2 := by
  have h := reenqueue_fresh_timestamp_class_tail reqA 2
    [QueueItem.from_request reqB 1] (QueueItem.from_request reqB 1)
    (by decide) (QueueItem.from_request reqB 1)
    [QueueItem.from_request reqA 2] (by decide)
  exact ⟨h.1, h.2.1 (by decide)⟩

/- ----------------------------------------------------------------------
   Claim theorems: resource allocator (C9, C1).
   ---------------------------------------------------------------------- -/

/-- C9.  Atomicity of unknown release: releasing an allocation whose id is
not among the recorded outstanding allocations returns `False` and leaves
the allocator state (every node's totals and availabilities, and the
recorded allocations) unchanged. -/
theorem release_unknown_allocation_noop (st : AllocState)
    (a : ResourceAllocation)
    (h : st.allocations.lookup a.allocation_id = none) :
    release_resources st a = (false, st) := by
  simp [release_resources, h]

/-- A node with 2 GPUs of which 1 is reserved. -/
def nodeC9 : NodeResources :=
  { node_name := "n1", total_gpus := 2, available_gpus := 1,
    gpu_ids := ["n1-gpu-0", "n1-gpu-1"], total_cpu_cores := 64,
    available_cpu_cores := 56, total_memory_gb := 256,
    available_memory_gb := 224 }

/-- The allocation recorded in `stC9` (id 5). -/
def allocKnown : ResourceAllocation :=
  { allocation_id := 5, gpu_ids := ["n1-gpu-0"], cpu_cores := 8,
    memory_gb := 32, node_name := "n1" }

/-- A concrete allocator state with one recorded allocation. -/
def stC9 : AllocState :=
  { nodes := [("n1", nodeC9)], allocations := [(5, allocKnown)] }

/-- An allocation value whose id 7 is not recorded in `stC9`. -/
def allocUnknown : ResourceAllocation :=
  { allocation_id := 7, gpu_ids := ["n1-gpu-1"], cpu_cores := 8,
    memory_gb := 32, node_name := "n1" }

/-- Witness for `release_unknown_allocation_noop` at `stC9` and
`allocUnknown`. -/
theorem release_unknown_allocation_noop_witness :
    stC9.allocations.lookup allocUnknown.allocation_id = none ∧
    release_resources stC9 allocUnknown = (false, stC9) :=
  ⟨by decide, release_unknown_allocation_noop stC9 allocUnknown (by decide)⟩

/-- The single-node cluster listing used in the C1 trace: node `n1`,
vendor `amd`, 2 GPUs, 64 cores, 256 GB. -/
def repC1 : NodeReport :=
  { name := "n1", gpu_count := 2, cpu_cores := 64, memory_gb := 256 }

/-- The allocator state after `refresh()` at tick 0 followed by a
successful `allocate_resources` (allocation id 7) on the same listing. -/
def stC1alloc : Option ResourceAllocation × AllocState :=
  allocate_resources (refresh_node_resources {} [repC1] 0) {} [repC1] 0 7

/-- The state after the next `refresh_node_resources` at tick 1, with one
allocation still outstanding. -/
def stC1 : AllocState := refresh_node_resources stC1alloc.2 [repC1] 1

/-- The allocation minted by `stC1alloc` (default requests: 1 GPU, 8
cores, 32 GB). -/
def allocC1 : ResourceAllocation :=
  { allocation_id := 7, gpu_ids := ["n1-gpu-0"], cpu_cores := 8,
    memory_gb := 32, node_name := "n1" }

/-- The `n1` entry of `stC1.nodes`: the refresh at tick 1 rewrote every
`available_*` field back to the reported totals. -/
def nodeC1 : NodeResources :=
  { node_name := "n1", total_gpus := 2, available_gpus := 2,
    gpu_ids := ["n1-gpu-0", "n1-gpu-1"],
    gpu_architectures := ["gfx90a", "gfx90a"], total_cpu_cores := 64,
    available_cpu_cores := 64, total_memory_gb := 256,
    available_memory_gb := 256, last_updated := 1 }

/-- C1 fails on the code.  With one outstanding allocation (1 GPU, 8
cores, 32 GB) on node `n1`, `refresh_node_resources` resets
`available_gpus`, `available_cpu_cores` and `available_memory_gb` to the
reported totals (resource_allocator.py lines 114-121), so immediately
after the refresh `available_gpus + Σ outstanding = 2 + 1 ≠ 2 =
total_gpus`, and likewise `64 + 8 ≠ 64` for CPU and `256 + 32 ≠ 256` for
memory. -/
theorem refresh_resets_available_ignoring_outstanding :
    stC1alloc.1 = some allocC1 ∧
    stC1.allocations = [(7, allocC1)] ∧
    stC1.nodes.lookup "n1" = some nodeC1 ∧
    outstandingGpus stC1 "n1" = 1 ∧
    outstandingCpu stC1 "n1" = 8 ∧
    outstandingMem stC1 "n1" = 32 ∧
    ¬ (nodeC1.available_gpus + outstandingGpus stC1 "n1" = nodeC1.total_gpus) ∧
    ¬ (nodeC1.available_cpu_cores + outstandingCpu stC1 "n1" =
        nodeC1.total_cpu_cores) ∧
    ¬ (nodeC1.available_memory_gb + outstandingMem stC1 "n1" =
        nodeC1.total_memory_gb) := by
  have halloc : stC1.allocations = [(7, allocC1)] := by decide
  have hmem : outstandingMem stC1 "n1" = 32 := by
    rw [outstandingMem, halloc]
    simp [allocC1]
  refine ⟨by decide, halloc, by decide, by decide, by decide, hmem, by decide,
    by decide, ?_⟩
  rw [hmem]
  simp [nodeC1]

/- ----------------------------------------------------------------------
   Claim theorems: coordinator start-up (C2), health probing (C7),
   status stamping (C8) and completion accounting (C4).
   ---------------------------------------------------------------------- -/

/-- A request persisted as Pending before the coordinator starts. -/
def reqPend : BuildRequest := { id := 11 }

/-- A state manager holding `reqPend` with status `pending`
(as `save_build_request` records it). -/
def smC2 : SMState := save_build_request {} reqPend 0

/-- The coordinator state after `start()` on an empty queue over `smC2`,
together with the ordered list of steps `start()` performed. -/
def startC2 : CoordState × List StartEvent :=
  BuildCoordinator.start { sm := smC2 }

/-- C2 fails on the code.  `start()` creates the `_process_queue` task
first and only then awaits `restore_pending_builds()` (coordinator.py
lines 41-42), and it discards the returned list: with one request
persisted as Pending, `restore_pending_builds` returns it, yet after
`start()` the queue is still empty — no re-submission happens, and the
loop is spawned before the restore call rather than after it. -/
theorem start_spawns_loop_first_and_discards_restored :
    restore_pending_builds smC2 = [reqPend] ∧
    startC2.1.queue.items = [] ∧
    startC2.2 = [StartEvent.spawn_processing_loop,
      StartEvent.restore_pending_called [reqPend]] := by
  decide

/-- A worker currently marked unhealthy. -/
def workerC7 : WorkerInfo :=
  { worker_id := "w1", address := "10.0.0.1", is_healthy := false }

/-- A registry with the single worker `workerC7`. -/
def lbC7 : LBState := { workers := [("w1", workerC7)] }

/-- One health-check round over `lbC7` in which the probe of every worker
raises (times out / fails to connect), at tick 10. -/
def lbC7after : LBState :=
  perform_health_checks lbC7 (fun _ => ProbeOutcome.raised) 10

/-- C7 fails on the code.  When the bounded-timeout probe raises (timeout
or connection error), `_check_worker_health` returns `True`
(load_balancer.py lines 271-272), so the round marks the worker healthy —
the claim requires it to be marked unhealthy on probe failure.  (A non-200
response does mark it unhealthy, shown by the second conjunct.) -/
theorem probe_exception_marks_worker_healthy :
    (lbC7after.workers.lookup "w1").map WorkerInfo.is_healthy = some true ∧
    ((perform_health_checks lbC7 (fun _ => ProbeOutcome.status 503) 10)
      |>.workers.lookup "w1").map WorkerInfo.is_healthy = some false := by
  decide

lemma update_build_status_raises (sm : SMState) (build_id : Nat)
    (status : BuildStatus) (metadata : List (String × PyVal)) (now : Nat) :
    ∃ sm', update_build_status sm build_id status metadata now =
      Except.error sm' := by
  exact ⟨_, rfl⟩

/-- The state left behind by `update_build_status` on a fresh state
manager for build 1 with status Timeout at tick 5 (the partial update the
`AttributeError` leaves behind). -/
def smC8 : SMState :=
  match update_build_status {} 1 BuildStatus.timeout [] 5 with
  | .error s => s
  | .ok s => s

/-- C8 fails on the code.  `update_build_status` evaluates
`BuildStatus.FAILED` (state_manager.py line 88), a member the enum does
not define (constants.py declares `FAILURE`), so every call — terminal
status or not — raises `AttributeError` instead of completing normally,
and the `completed_at` stamping below that line is unreachable: after the
Timeout call the build's dict has no `completed_at` key.  (Even read as
`FAILURE`, the tuple omits `TIMEOUT`, so a Timeout transition would still
not stamp `completed_at`.) -/
theorem terminal_status_stamping_unreachable :
    (∀ (sm : SMState) (build_id : Nat) (status : BuildStatus)
      (metadata : List (String × PyVal)) (now : Nat),
      ∃ sm', update_build_status sm build_id status metadata now =
        Except.error sm') ∧
    update_build_status {} 1 BuildStatus.timeout [] 5 = Except.error smC8 ∧
    ((smC8.build_states.lookup 1).map
      (fun d => (d.lookup "completed_at").isSome) = some false) := by
  refine ⟨update_build_status_raises, rfl, by decide⟩

/-- C4 fails on the code.  `_handle_build_result` never reaches the load
balancer: the `update_build_status` call raises (see
`terminal_status_stamping_unreachable`), so the function exits with the
load balancer untouched — `record_build_completion` is not called (indeed
it has no caller anywhere in the repository), and even the unreachable
normal path calls `update_worker_load(result.environment.node_name or
"unknown", -1)`, not `record_build_completion`. -/
theorem handle_build_result_never_records_completion
    (sm : SMState) (lb : LBState) (build_id : Nat) (result : DispatchResult)
    (now : Nat) :
    ∃ sm', handle_build_result sm lb build_id result now =
      Except.error (sm', lb) := by
  obtain ⟨sm', h⟩ := update_build_status_raises sm build_id result.status
    [("completed_at", match result.completed_at with
        | some t => .int t
        | none => .pynone),
     ("duration_seconds", match result.duration_seconds with
        | some d => .rat d
        | none => .pynone)] now
  refine ⟨sm', ?_⟩
  unfold handle_build_result
  dsimp only
  rw [h]

/- ----------------------------------------------------------------------
   Claim theorem: priority scoring policy (C5).
   ---------------------------------------------------------------------- -/

/-- The claim's reading of a label match: some request label, lowercased,
contains `pat` as a substring. -/
def labelMatches (labels : List String) (pat : String) : Bool :=
  labels.any (fun l => strContains (strLower l) pat)

/-- The boost a single (already lowercased) label earns: the largest of
the four label boosts whose pattern it contains, 0 if none. -/
def perLabelBoost (labelLower : String) : Int :=
  max (if strContains labelLower "critical" then 100 else 0)
    (max (if strContains labelLower "urgent" then 80 else 0)
      (max (if strContains labelLower "high-priority" then 60 else 0)
        (if strContains labelLower "quick-test" then 40 else 0)))

/-- The claim's label rule: the maximum (not the sum) of the boosts
`100 (critical)`, `80 (urgent)`, `60 (high-priority)`, `40 (quick-test)`
over the labels matched as case-insensitive substrings, 0 if none match. -/
def specLabelBoost (labels : List String) : Int :=
  max (if labelMatches labels "critical" then 100 else 0)
    (max (if labelMatches labels "urgent" then 80 else 0)
      (max (if labelMatches labels "high-priority" then 60 else 0)
        (if labelMatches labels "quick-test" then 40 else 0)))

lemma specLabelBoost_nonneg (labels : List String) :
    0 ≤ specLabelBoost labels := by
  simp only [specLabelBoost, max_def]
  split_ifs <;> omega

lemma if_or_max (v : Int) (a b : Bool) (hv : 0 ≤ v) :
    (if (a || b) then v else 0) =
      max (if a then v else 0) (if b then v else 0) := by
  cases a <;> cases b <;> simp [max_def] <;> omega

lemma labelBoostStep_eq (acc : Int) (l : String) (h : 0 ≤ acc) :
    labelBoostStep acc l = max acc (perLabelBoost l) := by
  cases h1 : strContains l "critical" <;> cases h2 : strContains l "urgent" <;>
    cases h3 : strContains l "high-priority" <;>
    cases h4 : strContains l "quick-test" <;>
    simp [labelBoostStep, label_priority_boost, perLabelBoost,
      h1, h2, h3, h4, max_def] <;>
    split_ifs <;> omega

lemma labelMatches_cons (l : String) (ls : List String) (p : String) :
    labelMatches (l :: ls) p =
      (strContains (strLower l) p || labelMatches ls p) := by
  simp [labelMatches]

lemma specLabelBoost_cons (l : String) (ls : List String) :
    specLabelBoost (l :: ls) =
      max (perLabelBoost (strLower l)) (specLabelBoost ls) := by
  simp only [specLabelBoost, labelMatches_cons, perLabelBoost]
  rw [if_or_max 100 _ _ (by norm_num), if_or_max 80 _ _ (by norm_num),
    if_or_max 60 _ _ (by norm_num), if_or_max 40 _ _ (by norm_num)]
  ac_rfl

lemma label_boost_go (labels : List String) :
    ∀ acc : Int, 0 ≤ acc →
      labels.foldl (fun a l => labelBoostStep a (strLower l)) acc =
        max acc (specLabelBoost labels) := by
  induction labels with
  | nil =>
    intro acc h
    have h0 : specLabelBoost [] = 0 := by
      simp [specLabelBoost, labelMatches]
    rw [List.foldl_nil, h0, max_eq_left h]
  | cons l ls ih =>
    intro acc h
    rw [List.foldl_cons, labelBoostStep_eq acc (strLower l) h,
      ih _ (le_trans h (le_max_left _ _)), specLabelBoost_cons]
    ac_rfl

lemma get_label_priority_boost_eq (labels : List String) :
    get_label_priority_boost labels = specLabelBoost labels := by
  unfold get_label_priority_boost
  rw [label_boost_go labels 0 le_rfl]
  exact max_eq_right (specLabelBoost_nonneg labels)

/-- C5.  Priority scoring and classification: the score is 50, plus 100
for a main branch, plus 80 for a release-prefixed branch, plus 90 for a
hotfix-prefixed branch, plus the maximum (not the sum) of the label
boosts over case-insensitive substring matches, plus 30 when ready for
review, minus 20 when draft, minus 10 when triggered by
dependabot/renovate, minus 5 per retry; and `calculate_priority`
classifies Critical iff score ≥ 150, High iff 80 ≤ score < 150, Normal
iff 20 ≤ score < 80, and Low otherwise. -/
theorem priority_scoring_policy (r : BuildRequest) :
    calculate_priority_score r =
      50 + (if is_main_branch r.branch then 100 else 0)
        + (if is_release_branch r.branch then 80 else 0)
        + (if is_hotfix_branch r.branch then 90 else 0)
        + specLabelBoost r.metadata.labels
        + (if r.metadata.is_ready_for_review then 30 else 0)
        + (if r.metadata.is_draft then -20 else 0)
        + (if is_dependabot_pr r then -10 else 0)
        - 5 * r.metadata.retry_count ∧
    (calculate_priority r = .critical ↔ 150 ≤ calculate_priority_score r) ∧
    (calculate_priority r = .high ↔
      80 ≤ calculate_priority_score r ∧ calculate_priority_score r < 150) ∧
    (calculate_priority r = .normal ↔
      20 ≤ calculate_priority_score r ∧ calculate_priority_score r < 80) ∧
    (calculate_priority r = .low ↔ calculate_priority_score r < 20) := by
  constructor
  · unfold calculate_priority_score
    rw [get_label_priority_boost_eq]
    simp only [show weightOf "is_main_branch" = 100 from rfl,
      show weightOf "is_release_branch" = 80 from rfl,
      show weightOf "is_hotfix_branch" = 90 from rfl,
      show weightOf "is_ready_for_review" = 30 from rfl,
      show weightOf "is_draft" = -20 from rfl,
      show weightOf "is_dependabot" = -10 from rfl,
      show weightOf "retry_count" = -5 from rfl]
    split_ifs <;> ring
  · unfold calculate_priority
    dsimp only
    split_ifs with h1 h2 h3 <;> refine ⟨?_, ?_, ?_, ?_⟩ <;> simp <;> omega
